import Mathlib

/-!
# Verification of the audibook-studio python worker core

Shallow embedding of the job consumption and batch-processing state machine
of `apps/python-worker` (job_processor.py, nats_worker.py, services/diacritics.py,
services/database_orm.py), together with theorems settling the frozen claims
about it.

Modelling conventions:
* Wall-clock durations (`time.time()` based fields of the result dicts) and log
  output are dropped: they carry no control flow.
* `json.loads` and the dict `.get` protocol applied to the stored book metadata
  are Python-stdlib collaborators; their observable outcomes are represented by
  the `MetaBlob` type (a successful parse yielding an optional `diacriticsType`
  entry, versus a parse or attribute failure caught by the `except` clause).
* `hashlib.md5(key.encode()).hexdigest()` is an external deterministic hash; it
  is modelled as the identity on its input string, which preserves the only
  property the code relies on (equal inputs give equal keys).
* Mutable flags read at defined program points (the job processor's shutdown
  flag checked before each batch, transient ack failures of the broker) are
  modelled as oracles indexed by the check point (`Nat → Bool`).
* Python exceptions are `Except PyError`; an exception caught by the source is
  not visible in a function's type.
-/

/-- Kinds of Python exceptions the embedded code can raise or catch. -/
inductive PyError where
  | valueError (msg : String)
  | unboundLocal
  | attributeError
  | runtimeError
deriving Repr, DecidableEq

/-- A row of the join produced by
`DatabaseORMService.get_paragraphs_for_diacritics` (database_orm.py:65-92):
paragraph id, content, intra-page order, page id, owning book id and the page's
order inside the book. -/
structure ParagraphRow where
  id : String
  content : String
  orderIndex : Nat
  pageId : String
  bookId : String
  pageOrder : Nat
deriving Repr, DecidableEq

/-- Observable outcome of reading `book.processingMetadata`
(job_processor.py:245-262): either the metadata parses and the `.get` call
yields the optional `diacriticsType` entry, or `json.loads` / `.get` raises
one of the exceptions caught by the `except (JSONDecodeError, AttributeError)`
clause. -/
inductive MetaBlob where
  | parsed (diacriticsType : Option String)
  | malformed
deriving Repr, DecidableEq

/-- A `Book` row as used by the job processor: id plus the optional
`processingMetadata` column (`none` models NULL or a falsy value, which skips
the metadata block). -/
structure Book where
  id : String
  processingMetadata : Option MetaBlob
deriving Repr, DecidableEq

/-- The effective payload of a job message: the three keys the worker reads
(`bookId`, `correlationId`, `paragraphIds`), each optional as in a Python dict. -/
structure JobData where
  bookId : Option String
  correlationId : Option String
  paragraphIds : Option (List String)
deriving Repr, DecidableEq

/-- Result dict of a diacritics job, restricted to the control-flow-relevant
keys (`status`, `processed_count`, `error_count`, `message`,
`total_paragraphs`); the duration and rate fields are wall-clock telemetry. -/
structure JobResult where
  status : String
  processed_count : Nat
  error_count : Nat
  message : Option String
  total_paragraphs : Option Nat
deriving Repr, DecidableEq

/-- Outcome of one `add_*_diacritics_batch` call as seen by the job
processor's batch loop: a returned list, or an exception caught by the
batch-level `except`. -/
inductive BatchOutcome where
  | ok (results : List String)
  | raise

/-- Persistent processor state: the in-memory `processed_jobs` dedup set of a
`JobProcessor` instance (job_processor.py:23). -/
structure ProcState where
  processed_jobs : List String
deriving Repr, DecidableEq

/-- State threaded through the batch loop of
`_process_diacritics_job_common`: the running counters and the paragraph
table as mutated by the updates so far. -/
structure LoopState where
  processed_count : Nat
  error_count : Nat
  batch_count : Nat
  table : List ParagraphRow
deriving Repr, DecidableEq

/-- The collaborators of the job processor: the book table, the paragraph
table, the two diacritics batch methods, and an oracle saying which paragraph
ids' `update_paragraph_content` call raises `SQLAlchemyError`. -/
structure Env where
  books : List Book
  table : List ParagraphRow
  annotateAdvanced : List String → BatchOutcome
  annotateSimple : List String → BatchOutcome
  updateFails : String → Bool

/-- Python `str()` of an optional string, as an f-string renders it. -/
def pyStr : Option String → String
  | none => "None"
  | some s => s

/-- `JobProcessor._generate_job_id` (job_processor.py:26-29): the dedup key
derived from `f"{book_id}:{correlation_id}"`; the md5 hex digest is modelled
as the identity on its input (see module docstring). -/
def generate_job_id (book_id correlation_id : String) : String :=
  book_id ++ ":" ++ correlation_id

/-- SQL comparison key of the fetch query's ORDER BY
(page order ascending, then paragraph order ascending). -/
def rowLE (a b : ParagraphRow) : Bool :=
  Nat.blt a.pageOrder b.pageOrder ||
    (a.pageOrder == b.pageOrder && Nat.ble a.orderIndex b.orderIndex)

/-- Insertion step of the ORDER BY model. -/
def insertRow (r : ParagraphRow) : List ParagraphRow → List ParagraphRow
  | [] => [r]
  | x :: xs => if rowLE r x then r :: x :: xs else x :: insertRow r xs

/-- Sorting model of the fetch query's ORDER BY clause. -/
def sortRows : List ParagraphRow → List ParagraphRow
  | [] => []
  | x :: xs => insertRow x (sortRows xs)

/-- `DatabaseORMService.get_paragraphs_for_diacritics` (database_orm.py:65-92):
all rows of the book with non-empty content, ordered by page then paragraph.
Note the ORM service accepts no paragraph-id filter argument. -/
def get_paragraphs_for_diacritics (table : List ParagraphRow)
    (book_id : Option String) : List ParagraphRow :=
  sortRows (table.filter (fun p => some p.bookId == book_id && p.content != ""))

/-- `DatabaseORMService.get_book_by_id` (database_orm.py:144-153): first book
row whose id equals the argument (`None` matches nothing, as SQL NULL). -/
def get_book_by_id (books : List Book) (book_id : Option String) : Option Book :=
  books.find? (fun b => some b.id == book_id)

/-- `DatabaseORMService.update_paragraph_content` (database_orm.py:94-111):
set the content of the first row with the given id; a missing id is a silent
no-op. A raising update is modelled by the caller via `Env.updateFails`. -/
def update_paragraph_content : List ParagraphRow → String → String → List ParagraphRow
  | [], _, _ => []
  | r :: rs, pid, c =>
    if r.id == pid then { r with content := c } :: rs
    else r :: update_paragraph_content rs pid c

/-- The metadata-resolution block of `_process_diacritics_job_common`
(job_processor.py:243-269): fetches nothing itself (the book is passed in),
overrides the diacritics method and job type from a parsed
`diacriticsType` preference, and on a malformed blob the `except` clause
logs and keeps the defaults, after which the `logger.info` f-string at
line 264 references the never-assigned `metadata_diacritics_type`, raising
`UnboundLocalError`. -/
def resolve_metadata_variant (book : Option Book) (diacritics_method job_type : String) :
    Except PyError (String × String) :=
  match book with
  | none => .ok (diacritics_method, job_type)
  | some b =>
    match b.processingMetadata with
    | none => .ok (diacritics_method, job_type)
    | some (.parsed d) =>
      if d.getD "advanced" == "simple" then .ok ("simple", "simple")
      else .ok ("advanced", "advanced")
    | some .malformed => .error .unboundLocal

/-- Dispatch on `diacritics_method` inside the batch try-block
(job_processor.py:355-360); an unknown method raises `ValueError`, which the
batch-level `except` catches, so it is folded into `BatchOutcome.raise`. -/
def dispatch_annotate (env : Env) (diacritics_method : String)
    (texts : List String) : BatchOutcome :=
  if diacritics_method == "advanced" then env.annotateAdvanced texts
  else if diacritics_method == "simple" then env.annotateSimple texts
  else .raise

/-- The per-record update loop (job_processor.py:369-385): for the j-th record
of the batch, `diacritics_results[j]` raises `IndexError` when j is out of
range, and the store update may raise; either exception is caught per record
and counted as one failure, otherwise the row is updated and counted as one
success. -/
def updateLoop (updateFails : String → Bool) (results : List String) :
    List ParagraphRow → Nat → LoopState → LoopState
  | [], _, st => st
  | p :: ps, j, st =>
    let st1 :=
      match results.get? j with
      | none => { st with error_count := st.error_count + 1 }
      | some rt =>
        if updateFails p.id then { st with error_count := st.error_count + 1 }
        else { st with processed_count := st.processed_count + 1,
                       table := update_paragraph_content st.table p.id rt }
    updateLoop updateFails results ps (j + 1) st1

/-- One iteration body of the batch loop (job_processor.py:350-421): annotate
the batch's texts; on success run the per-record update loop, on a raised
annotation call count the whole batch as failed with no update attempts. -/
def processBatch (env : Env) (diacritics_method : String)
    (batch : List ParagraphRow) (st : LoopState) : LoopState :=
  match dispatch_annotate env diacritics_method (batch.map (·.content)) with
  | .raise => { st with error_count := st.error_count + batch.length }
  | .ok results => updateLoop env.updateFails results batch 0 st

/-- The batch loop (job_processor.py:335-421): before each batch the shutdown
flag is read (modelled by the oracle `shutdownAt` applied to the batch index);
if set, the loop breaks, otherwise `batch_count` is incremented and the batch
is processed. -/
def runBatches (env : Env) (diacritics_method : String) (shutdownAt : Nat → Bool) :
    List (List ParagraphRow) → Nat → LoopState → LoopState
  | [], _, st => st
  | b :: bs, idx, st =>
    if shutdownAt idx then st
    else
      runBatches env diacritics_method shutdownAt bs (idx + 1)
        (processBatch env diacritics_method b { st with batch_count := st.batch_count + 1 })

/-- Structural worker for `chunksOf`: the fuel starts at the list length and
bounds the number of slices; for a positive `n` each step strictly shortens
the list, so the fuel never runs out before the list does. -/
def chunksOfAux (n : Nat) : Nat → List α → List (List α)
  | 0, _ => []
  | _, [] => []
  | fuel + 1, x :: xs => (x :: xs).take n :: chunksOfAux n fuel (List.drop (n - 1) xs)

/-- Slicing `paragraphs[i:i+batch_size]` for `i in range(0, len, batch_size)`
(job_processor.py:335, 346), for a positive chunk size. -/
def chunksOf (n : Nat) (l : List α) : List (List α) :=
  chunksOfAux n l.length l

/-- The dedup-path result dict (job_processor.py:282-288). -/
def dedupResult : JobResult :=
  { status := "completed", processed_count := 0, error_count := 0,
    message := some "Job already processed", total_paragraphs := none }

/-- The empty-fetch result dict (job_processor.py:306-312). -/
def noParagraphsResult : JobResult :=
  { status := "completed", processed_count := 0, error_count := 0,
    message := some "No paragraphs found", total_paragraphs := none }

/-- The final result dict (job_processor.py:442-452). -/
def completedResult (final : LoopState) (total : Nat) : JobResult :=
  { status := "completed", processed_count := final.processed_count,
    error_count := final.error_count, message := none,
    total_paragraphs := some total }

/-- The whole batch phase: slice into batches of 10 and run the loop from
fresh counters over the environment's paragraph table. -/
def run_job_batches (env : Env) (diacritics_method : String)
    (shutdownAt : Nat → Bool) (paragraphs : List ParagraphRow) : LoopState :=
  runBatches env diacritics_method shutdownAt (chunksOf 10 paragraphs) 0
    { processed_count := 0, error_count := 0, batch_count := 0, table := env.table }

/-- `JobProcessor._process_diacritics_job_common` (job_processor.py:231-452),
the live processing path for both job types: fetch the book and resolve the
variant from its metadata (before the dedup check), return the dedup result
if the key is already in `processed_jobs`, fetch the paragraphs with no
paragraph-id filter, return the no-paragraphs result on an empty fetch,
otherwise run the batch loop, add the dedup key and return the final result.
The returned triple carries the result dict, the processor state and the
paragraph table after the run; the only raise point (`UnboundLocalError`
from the metadata block) precedes every store mutation, so the error case
needs no table. -/
def process_diacritics_job_common (env : Env) (st : ProcState) (job_data : JobData)
    (job_type diacritics_method : String) (shutdownAt : Nat → Bool) :
    Except PyError (JobResult × ProcState × List ParagraphRow) :=
  match resolve_metadata_variant (get_book_by_id env.books job_data.bookId)
      diacritics_method job_type with
  | .error e => .error e
  | .ok (dm, _jt) =>
    if st.processed_jobs.contains
        (generate_job_id (pyStr job_data.bookId) (pyStr job_data.correlationId)) then
      .ok (dedupResult, st, env.table)
    else
      if (get_paragraphs_for_diacritics env.table job_data.bookId).isEmpty then
        .ok (noParagraphsResult, st, env.table)
      else
        .ok (completedResult
              (run_job_batches env dm shutdownAt
                (get_paragraphs_for_diacritics env.table job_data.bookId))
              (get_paragraphs_for_diacritics env.table job_data.bookId).length,
             { processed_jobs := st.processed_jobs ++
                [generate_job_id (pyStr job_data.bookId) (pyStr job_data.correlationId)] },
             (run_job_batches env dm shutdownAt
                (get_paragraphs_for_diacritics env.table job_data.bookId)).table)

/-- `JobProcessor.get_supported_job_types` (job_processor.py:481-483). -/
def get_supported_job_types : List String :=
  ["add-advanced-diacritics", "add-simple-diacritics"]

/-- `JobProcessor.is_job_supported` (job_processor.py:485-487). -/
def is_job_supported (job_name : String) : Bool :=
  get_supported_job_types.contains job_name

/-- `JobProcessor.process_job` (job_processor.py:489-502): dispatch by job
name to the common path via `process_add_diacritics_job` (the second, live
definition at line 454) or `process_add_simple_diacritics_job`; an
unsupported name raises `ValueError`. -/
def process_job (env : Env) (st : ProcState) (job_name : String)
    (job_data : JobData) (shutdownAt : Nat → Bool) :
    Except PyError (JobResult × ProcState × List ParagraphRow) :=
  if !is_job_supported job_name then
    .error (.valueError ("Unsupported job type: " ++ job_name))
  else if job_name == "add-advanced-diacritics" then
    process_diacritics_job_common env st job_data "advanced" "advanced" shutdownAt
  else if job_name == "add-simple-diacritics" then
    process_diacritics_job_common env st job_data "simple" "simple" shutdownAt
  else
    .error (.valueError ("Unknown job type: " ++ job_name))

/-- The names bound in the `JobProcessor` class body (job_processor.py:17-510);
the first `process_add_diacritics_job` definition (line 31) is shadowed by the
second (line 454), so the class dict holds it once. `request_shutdown` is not
among them, although `nats_worker.py:212` calls it. -/
def jobProcessorMethods : List String :=
  ["__init__", "_generate_job_id", "process_add_diacritics_job",
   "_process_diacritics_job_common", "process_add_simple_diacritics_job",
   "get_supported_job_types", "is_job_supported", "process_job",
   "get_service_status"]

/-- Flags of a `NatsPythonWorker` instance together with its job processor's
shutdown flag (nats_worker.py:47-58, job_processor.py:24). -/
structure WorkerState where
  running : Bool
  shutdown_requested : Bool
  nats_connected : Bool
  has_job_processor : Bool
  processor_shutdown_requested : Bool
deriving Repr, DecidableEq

/-- The signal handler installed by `_setup_signal_handlers`
(nats_worker.py:203-215): sets the worker's flags, then calls
`self.job_processor.request_shutdown()`; attribute lookup on the class dict
raises `AttributeError` when the method does not exist, after the flags were
already written. -/
def signal_handler (w : WorkerState) : WorkerState × Option PyError :=
  let w1 := { w with shutdown_requested := true, running := false }
  if w1.has_job_processor then
    if jobProcessorMethods.contains "request_shutdown" then
      ({ w1 with processor_shutdown_requested := true }, none)
    else (w1, some .attributeError)
  else (w1, none)

/-- `NatsPythonWorker.stop` (nats_worker.py:228-241): sets the worker's own
flags, sleeps two seconds, and closes the connection if open; it never touches
the job processor. -/
def worker_stop (w : WorkerState) : WorkerState :=
  let w1 := { w with running := false, shutdown_requested := true }
  if w1.nats_connected then { w1 with nats_connected := false } else w1

/-- Broker interaction trace of one `process_message` call: ack attempts
issued, whether one succeeded, naks issued, and 0.5-second pauses taken. -/
structure MsgTrace where
  ack_attempts : Nat
  ack_success : Bool
  naks : Nat
  sleeps : Nat
deriving Repr, DecidableEq

/-- The ack retry loop (nats_worker.py:316-329): for each remaining attempt
index, issue one ack; on success stop, on failure pause 0.5s unless it was
the last attempt and retry. `ackFailsAt i` says whether the i-th attempt's
`msg.ack()` raises. -/
def ack_retry (ackFailsAt : Nat → Bool) : List Nat → MsgTrace
  | [] => { ack_attempts := 0, ack_success := false, naks := 0, sleeps := 0 }
  | a :: rest =>
    if ackFailsAt a then
      let tr := ack_retry ackFailsAt rest
      { tr with ack_attempts := tr.ack_attempts + 1,
                sleeps := tr.sleeps + (if rest.isEmpty then 0 else 1) }
    else { ack_attempts := 1, ack_success := true, naks := 0, sleeps := 0 }

/-- Decoded wire shape of a NATS message body (nats_worker.py:288-301):
either `json.loads` raises, or the body is an envelope with a nested `data`
field, or a flat payload. -/
inductive Wire where
  | badJson
  | enveloped (jobId jobName : String) (data : JobData)
  | flat (data : JobData)

/-- A delivered message: its subject and decoded body. -/
structure Msg where
  subject : String
  wire : Wire

/-- Characters of the last dot-separated segment of a subject: scanning left
to right, a dot resets the current segment. -/
def last_segment_aux : List Char → List Char → List Char
  | [], cur => cur
  | c :: cs, cur =>
    if c = '.' then last_segment_aux cs []
    else last_segment_aux cs (cur ++ [c])

/-- The job type taken from the last segment of the subject,
`msg.subject.split('.')[-1]` (nats_worker.py:304). -/
def job_type_of_subject (subject : String) : String :=
  String.mk (last_segment_aux subject.data [])

/-- Everything inside `process_message`'s try-block up to and including the
`process_job` call (nats_worker.py:287-313): decode, unwrap the envelope,
derive the job type from the subject, and run the processor. -/
def message_outcome (env : Env) (st : ProcState) (msg : Msg)
    (shutdownAt : Nat → Bool) :
    Except PyError (JobResult × ProcState × List ParagraphRow) :=
  match msg.wire with
  | .badJson => .error (.valueError "json decode failed")
  | .enveloped _ _ d => process_job env st (job_type_of_subject msg.subject) d shutdownAt
  | .flat d => process_job env st (job_type_of_subject msg.subject) d shutdownAt

/-- Trace of a nak-only outcome (the single `msg.nak()` of the except block,
nats_worker.py:347-354). -/
def nak_trace : MsgTrace :=
  { ack_attempts := 0, ack_success := false, naks := 1, sleeps := 0 }

/-- `NatsPythonWorker.process_message` (nats_worker.py:283-354): on any raise
from decode or processing, one nak and no ack; on success the ack retry loop
over the three attempts. The raise points all precede any store mutation
visible here (the batch loop catches its own exceptions), so the error case
leaves the table as it was. -/
def process_message (env : Env) (st : ProcState) (msg : Msg)
    (ackFailsAt : Nat → Bool) (shutdownAt : Nat → Bool) :
    MsgTrace × ProcState × List ParagraphRow :=
  match message_outcome env st msg shutdownAt with
  | .error _ => (nak_trace, st, env.table)
  | .ok (_, st', table') => (ack_retry ackFailsAt [0, 1, 2], st', table')

/-- `DiacriticsService.add_diacritics` (diacritics.py:146-171): when the
service is initialized, run the chunk-split-and-rejoin pipeline over the
phonikud engine (the opaque `engine` collaborator covering lines 152-167) and
on any exception return the original text; when not initialized raise
`RuntimeError`. -/
def add_diacritics (inited : Bool) (engine : String → Except String String)
    (text : String) : Except PyError String :=
  if !inited then .error .runtimeError
  else
    match engine text with
    | .ok r => .ok r
    | .error _ => .ok text

/-- The per-text body of the batch loops (diacritics.py:185-191, 239-245):
call the single-text method and on an exception append the original text. -/
def batch_item (inited : Bool) (engine : String → Except String String)
    (text : String) : String :=
  match add_diacritics inited engine text with
  | .ok r => r
  | .error _ => text

/-- `DiacriticsService.add_advanced_diacritics_batch` (diacritics.py:173-199):
raise `RuntimeError` when uninitialized, otherwise map the guarded per-text
processing over the input list. -/
def add_advanced_diacritics_batch (inited : Bool)
    (engine : String → Except String String) (texts : List String) :
    Except PyError (List String) :=
  if !inited then .error .runtimeError
  else .ok (texts.map (batch_item inited engine))

/-- `DiacriticsService.add_simple_diacritics` (diacritics.py:201-226): same
guarded shape over the dicta engine. -/
def add_simple_diacritics (inited : Bool) (engine : String → Except String String)
    (text : String) : Except PyError String :=
  if !inited then .error .runtimeError
  else
    match engine text with
    | .ok r => .ok r
    | .error _ => .ok text

/-- `DiacriticsService.add_simple_diacritics_batch` (diacritics.py:228-253). -/
def add_simple_diacritics_batch (inited : Bool)
    (engine : String → Except String String) (texts : List String) :
    Except PyError (List String) :=
  if !inited then .error .runtimeError
  else .ok (texts.map (fun t =>
    match add_simple_diacritics inited engine t with
    | .ok r => r
    | .error _ => t))

/-! ## Concrete fixtures used by witnesses and counterexamples -/

/-- A paragraph row of book `b1`, page `pg1`. -/
def rowP1 : ParagraphRow :=
  { id := "p1", content := "shalom", orderIndex := 1, pageId := "pg1",
    bookId := "b1", pageOrder := 1 }

/-- A second paragraph row of book `b1`, page `pg1`. -/
def rowP2 : ParagraphRow :=
  { id := "p2", content := "olam", orderIndex := 2, pageId := "pg1",
    bookId := "b1", pageOrder := 1 }

/-- Row `rowP1` after the advanced annotation of the base environment. -/
def rowP1A : ParagraphRow := { rowP1 with content := "Ashalom" }

/-- Base environment: one paragraph, no book metadata, an advanced engine
prepending `A`, a trivial simple engine, and a store that never raises. -/
def envBase : Env :=
  { books := [], table := [rowP1],
    annotateAdvanced := fun ts => .ok (ts.map (fun t => "A" ++ t)),
    annotateSimple := fun ts => .ok ts,
    updateFails := fun _ => false }

/-- Job payload for book `b1` with correlation id `c1`. -/
def jdJ1 : JobData :=
  { bookId := some "b1", correlationId := some "c1", paragraphIds := none }

/-- The same logical job as `jdJ1` (equal bookId and correlationId) with an
explicit paragraph-id subset, delivered a second time. -/
def jdJ1Again : JobData :=
  { bookId := some "b1", correlationId := some "c1", paragraphIds := some ["zz"] }

/-- A shutdown oracle that is never set. -/
def sdNever : Nat → Bool := fun _ => false

/-- The final result of processing `jdJ1` against `envBase`. -/
def resJ1 : JobResult :=
  { status := "completed", processed_count := 1, error_count := 0,
    message := none, total_paragraphs := some 1 }

/-- A book whose stored metadata is present but unparsable. -/
def bookBad : Book := { id := "b1", processingMetadata := some .malformed }

/-- Environment whose one book carries malformed metadata. -/
def envBad : Env := { envBase with books := [bookBad] }

/-- Environment with two paragraphs for the filter and mismatch scenarios. -/
def envTwo : Env := { envBase with table := [rowP1, rowP2] }

/-- Job payload naming an explicit paragraph-id subset of book `b1`. -/
def jdFilter : JobData :=
  { bookId := some "b1", correlationId := some "c5", paragraphIds := some ["p1"] }

/-- Environment whose advanced batch call returns one output fewer than its
inputs (a length-mismatching collaborator). -/
def envShort : Env :=
  { envTwo with annotateAdvanced := fun ts => .ok ((ts.take 1).map (fun t => "A" ++ t)) }

/-- Job payload for the length-mismatch scenario. -/
def jdShort : JobData :=
  { bookId := some "b1", correlationId := some "c7", paragraphIds := none }

/-- Environment whose advanced batch call always raises. -/
def envRaise : Env := { envBase with annotateAdvanced := fun _ => .raise }

/-- A worker that finished initialization: connected, running, job processor
constructed, no shutdown requested anywhere. -/
def w0 : WorkerState :=
  { running := true, shutdown_requested := false, nats_connected := true,
    has_job_processor := true, processor_shutdown_requested := false }

/-- The job processor's collaborators built from the real diacritics-service
batch methods over a given engine, as `NatsPythonWorker.initialize` wires
them (nats_worker.py:97-104): the batch loop's annotate calls are the
service's batch methods with the service initialized. -/
def service_env (engine : String → Except String String) : Env :=
  { books := [], table := [],
    annotateAdvanced := fun ts =>
      match add_advanced_diacritics_batch true engine ts with
      | .ok rs => .ok rs
      | .error _ => .raise,
    annotateSimple := fun ts =>
      match add_simple_diacritics_batch true engine ts with
      | .ok rs => .ok rs
      | .error _ => .raise,
    updateFails := fun _ => false }

/-- A shutdown oracle that fires from the second check on. -/
def sdAfterOne : Nat → Bool := fun i => Nat.ble 1 i

/-- A shutdown oracle that is always set. -/
def sdAlways : Nat → Bool := fun _ => true

/-- An engine whose model call always raises. -/
def engineFail : String → Except String String := fun _ => .error "boom"

/-- An ack oracle under which every ack attempt succeeds. -/
def afNever : Nat → Bool := fun _ => false

/-- A message carrying the `jdJ1` payload in flat shape on the
advanced-diacritics subject. -/
def msgFlat : Msg :=
  { subject := "jobs.python.add-advanced-diacritics", wire := .flat jdJ1 }

/-- A message whose body is not valid JSON. -/
def msgBad : Msg :=
  { subject := "jobs.python.add-advanced-diacritics", wire := .badJson }

/-! ## Helper lemmas -/

/-- A list contains the element just appended to it. -/
theorem contains_append_self (l : List String) (a : String) :
    (l ++ [a]).contains a = true := by
  induction l with
  | nil => simp
  | cons x xs ih => simp [Or.inr ih]

/-- If the metadata block resolves without raising for one pair of defaults,
it resolves without raising for any pair (the only raising case, a malformed
blob, does not look at the defaults). -/
theorem resolve_ok_total (b : Option Book) (dm jt dm2 jt2 : String)
    (x : String × String) (h : resolve_metadata_variant b dm jt = .ok x) :
    ∃ y, resolve_metadata_variant b dm2 jt2 = .ok y := by
  cases b with
  | none => exact ⟨(dm2, jt2), rfl⟩
  | some bb =>
    cases hm : bb.processingMetadata with
    | none => simp [resolve_metadata_variant, hm]
    | some mb =>
      cases mb with
      | parsed d =>
        simp only [resolve_metadata_variant, hm]
        split <;> simp
      | malformed => simp [resolve_metadata_variant, hm] at h

/-- Looking a book up by a missing id finds nothing. -/
theorem get_book_by_id_none (books : List Book) :
    get_book_by_id books none = none := by
  simp [get_book_by_id, List.find?_eq_none]

/-- Fetching paragraphs for a missing book id returns the empty list. -/
theorem get_paragraphs_none (table : List ParagraphRow) :
    get_paragraphs_for_diacritics table none = [] := by
  have h : table.filter (fun p => some p.bookId == (none : Option String) && p.content != "") = [] := by
    simp [List.filter_eq_nil_iff]
  simp [get_paragraphs_for_diacritics, h, sortRows]

/-- Counting lemma for the per-record update loop when no store update
raises: starting the index at `j`, the records with an available result
(`min (results.length - j) batch.length` many) are counted as successes and
the rest as failures; the batch counter is untouched. -/
theorem updateLoop_count (uf : String → Bool) (res : List String)
    (huf : ∀ pid, uf pid = false) :
    ∀ (ps : List ParagraphRow) (j : Nat) (st : LoopState),
      (updateLoop uf res ps j st).processed_count
          = st.processed_count + min (res.length - j) ps.length ∧
      (updateLoop uf res ps j st).error_count
          = st.error_count + (ps.length - min (res.length - j) ps.length) ∧
      (updateLoop uf res ps j st).batch_count = st.batch_count := by
  intro ps
  induction ps with
  | nil => intro j st; simp [updateLoop]
  | cons p ps ih =>
    intro j st
    simp only [updateLoop]
    cases hj : res.get? j with
    | none =>
      have hlen : res.length ≤ j := List.get?_eq_none.mp hj
      obtain ⟨h1, h2, h3⟩ := ih (j + 1) { st with error_count := st.error_count + 1 }
      refine ⟨?_, ?_, ?_⟩ <;> simp only [h1, h2, h3, List.length_cons] <;> omega
    | some rt =>
      have hlt : j < res.length := by
        by_contra hge
        rw [List.get?_eq_none.mpr (Nat.le_of_not_lt hge)] at hj
        cases hj
      simp only [huf p.id, Bool.false_eq_true, if_false]
      obtain ⟨h1, h2, h3⟩ := ih (j + 1)
        { st with processed_count := st.processed_count + 1,
                  table := update_paragraph_content st.table p.id rt }
      refine ⟨?_, ?_, ?_⟩ <;> simp only [h1, h2, h3, List.length_cons] <;> omega

/-- When the shutdown oracle is false for the first `n` checks starting at
`idx` and true at the check after them, the loop runs exactly the first `n`
batches: the whole run equals the run on `bs.take n`. -/
theorem runBatches_shutdown_take (env : Env) (dm : String) (sd : Nat → Bool) :
    ∀ (bs : List (List ParagraphRow)) (idx : Nat) (st : LoopState) (n : Nat),
      (∀ i, i < n → sd (idx + i) = false) → sd (idx + n) = true →
      runBatches env dm sd bs idx st = runBatches env dm sd (bs.take n) idx st := by
  intro bs
  induction bs with
  | nil => intro idx st n _ _; simp
  | cons b bs ih =>
    intro idx st n h1 h2
    cases n with
    | zero =>
      have : sd idx = true := by simpa using h2
      simp [runBatches, this]
    | succ m =>
      have hfalse : sd idx = false := by simpa using h1 0 (Nat.succ_pos m)
      simp only [List.take_succ_cons, runBatches, hfalse, Bool.false_eq_true, if_false]
      refine ih (idx + 1) _ m ?_ ?_
      · intro i hi
        have := h1 (i + 1) (by omega)
        simpa [Nat.add_assoc, Nat.add_comm 1 i] using this
      · have : idx + 1 + m = idx + (m + 1) := by omega
        rw [this]; exact h2

/-- Every result the live processing path returns carries status
`completed`: all three return dicts hard-code it. -/
theorem process_common_status_completed (env : Env) (st : ProcState)
    (jd : JobData) (jt dm : String) (sd : Nat → Bool)
    (r : JobResult) (s : ProcState) (t : List ParagraphRow)
    (h : process_diacritics_job_common env st jd jt dm sd = .ok (r, s, t)) :
    r.status = "completed" := by
  unfold process_diacritics_job_common at h
  split at h
  · exact absurd h (by simp)
  · split at h
    · simp only [Except.ok.injEq, Prod.mk.injEq] at h
      obtain ⟨hr, -, -⟩ := h
      rw [← hr]; rfl
    · split at h
      · simp only [Except.ok.injEq, Prod.mk.injEq] at h
        obtain ⟨hr, -, -⟩ := h
        rw [← hr]; rfl
      · simp only [Except.ok.injEq, Prod.mk.injEq] at h
        obtain ⟨hr, -, -⟩ := h
        rw [← hr]; rfl

/-- When the dedup key is already in the processed set and the metadata block
resolves without raising, the live path returns the dedup result and changes
nothing. -/
theorem process_common_dedup (env : Env) (st : ProcState) (jd : JobData)
    (jt dm : String) (sd : Nat → Bool)
    (hdup : st.processed_jobs.contains
      (generate_job_id (pyStr jd.bookId) (pyStr jd.correlationId)) = true)
    (hres : ∃ y, resolve_metadata_variant (get_book_by_id env.books jd.bookId)
      dm jt = .ok y) :
    process_diacritics_job_common env st jd jt dm sd = .ok (dedupResult, st, env.table) := by
  obtain ⟨⟨a, b⟩, hres⟩ := hres
  unfold process_diacritics_job_common
  split
  · rename_i e heq
    rw [hres] at heq
    exact Except.noConfusion heq
  · rename_i pr dm' jt' heq
    rw [if_pos hdup]

/-- When the dedup key is fresh, the metadata block resolves without raising,
and the fetch returns no rows, the live path returns the no-paragraphs result
and changes nothing. -/
theorem process_common_empty (env : Env) (st : ProcState) (jd : JobData)
    (jt dm : String) (sd : Nat → Bool)
    (hdup : st.processed_jobs.contains
      (generate_job_id (pyStr jd.bookId) (pyStr jd.correlationId)) = false)
    (hres : ∃ y, resolve_metadata_variant (get_book_by_id env.books jd.bookId)
      dm jt = .ok y)
    (hpar : get_paragraphs_for_diacritics env.table jd.bookId = []) :
    process_diacritics_job_common env st jd jt dm sd
      = .ok (noParagraphsResult, st, env.table) := by
  obtain ⟨⟨a, b⟩, hres⟩ := hres
  unfold process_diacritics_job_common
  split
  · rename_i e heq
    rw [hres] at heq
    exact Except.noConfusion heq
  · rename_i pr dm' jt' heq
    rw [if_neg (by rw [hdup]; exact Bool.false_ne_true), hpar]
    simp

/-! ## Claim theorems -/

/-- Claim C2 (code bug): for every job whose parent book is found and has
malformed (unparsable) stored metadata, the live path raises
`UnboundLocalError` instead of falling back and continuing — the `except`
clause keeps the defaults, but the log statement that follows it reads the
never-assigned `metadata_diacritics_type`. -/
theorem c2_malformed_metadata_raises (env : Env) (st : ProcState) (jd : JobData)
    (jt dm : String) (sd : Nat → Bool) (b : Book)
    (hb : get_book_by_id env.books jd.bookId = some b)
    (hmeta : b.processingMetadata = some .malformed) :
    process_diacritics_job_common env st jd jt dm sd = .error .unboundLocal := by
  unfold process_diacritics_job_common
  rw [hb]
  simp [resolve_metadata_variant, hmeta]

/-- Witness for C2: the concrete malformed-metadata book makes the job raise. -/
theorem c2_malformed_metadata_raises_witness :
    get_book_by_id envBad.books jdJ1.bookId = some bookBad ∧
    bookBad.processingMetadata = some .malformed ∧
    process_diacritics_job_common envBad ⟨[]⟩ jdJ1 "advanced" "advanced" sdNever
      = .error .unboundLocal :=
  ⟨rfl, rfl,
    c2_malformed_metadata_raises envBad ⟨[]⟩ jdJ1 "advanced" "advanced" sdNever
      bookBad rfl rfl⟩

/-- Claim C3 (code bug): a job with a missing `bookId` is not rejected by any
validation — the live path (the second `process_add_diacritics_job`
definition shadows the one containing the `bookId` check) proceeds, finds no
book and no paragraphs for the missing id, and returns a successful
`completed` result, which the consumer then acks. -/
theorem c3_missing_book_id_not_validated (env : Env) (st : ProcState)
    (sd : Nat → Bool)
    (hfresh : st.processed_jobs.contains "None:None" = false) :
    process_job env st "add-advanced-diacritics" ⟨none, none, none⟩ sd
      = .ok (noParagraphsResult, st, env.table) := by
  have hred : process_job env st "add-advanced-diacritics" ⟨none, none, none⟩ sd
      = process_diacritics_job_common env st ⟨none, none, none⟩ "advanced" "advanced" sd := rfl
  rw [hred]
  refine process_common_empty env st ⟨none, none, none⟩ "advanced" "advanced" sd
    hfresh ?_ (get_paragraphs_none env.table)
  refine ⟨("advanced", "advanced"), ?_⟩
  rw [show get_book_by_id env.books (⟨none, none, none⟩ : JobData).bookId = none from
    get_book_by_id_none env.books]
  rfl

/-- Witness for C3: with a fresh processor, the bookId-less job completes. -/
theorem c3_missing_book_id_not_validated_witness :
    (⟨[]⟩ : ProcState).processed_jobs.contains "None:None" = false ∧
    process_job envBase ⟨[]⟩ "add-advanced-diacritics" ⟨none, none, none⟩ sdNever
      = .ok (noParagraphsResult, ⟨[]⟩, envBase.table) :=
  ⟨by decide, c3_missing_book_id_not_validated envBase ⟨[]⟩ sdNever (by decide)⟩

/-- Claim C4 (code bug): on a fully initialized worker, the signal handler
sets the consumer's flags but then raises `AttributeError`, because
`JobProcessor` defines no `request_shutdown` method, and the job processor's
shutdown flag is never set; `stop()` also never signals the job processor. -/
theorem c4_shutdown_never_signals_processor :
    (signal_handler w0).2 = some .attributeError ∧
    (signal_handler w0).1.shutdown_requested = true ∧
    (signal_handler w0).1.running = false ∧
    (signal_handler w0).1.processor_shutdown_requested = false ∧
    (worker_stop w0).shutdown_requested = true ∧
    (worker_stop w0).running = false ∧
    (worker_stop w0).processor_shutdown_requested = false ∧
    jobProcessorMethods.contains "request_shutdown" = false := by
  decide

/-- Claim C5 (code bug): the explicit paragraph-id subset of the payload is
ignored — the live path never reads `paragraphIds` (its result is invariant
under changing that field), and on a book with paragraphs `p1`, `p2` a job
restricted to `["p1"]` still fetches and updates both rows. -/
theorem c5_paragraph_filter_ignored :
    (∀ (env : Env) (st : ProcState) (jd : JobData) (jt dm : String)
       (sd : Nat → Bool) (ids : Option (List String)),
       process_diacritics_job_common env st { jd with paragraphIds := ids } jt dm sd
         = process_diacritics_job_common env st jd jt dm sd) ∧
    process_diacritics_job_common envTwo ⟨[]⟩ jdFilter "advanced" "advanced" sdNever
      = .ok ({ status := "completed", processed_count := 2, error_count := 0,
               message := none, total_paragraphs := some 2 },
             ⟨["b1:c5"]⟩,
             [{ rowP1 with content := "Ashalom" }, { rowP2 with content := "Aolam" }]) := by
  constructor
  · intro env st jd jt dm sd ids
    rfl
  · rfl

/-- Claim C6 (confirmed): a batch whose annotate call raises contributes
exactly `batch.length` failures, no successes, no store update and no table
change, and the loop continues with the remaining batches. -/
theorem c6_batch_raise_isolation (env : Env) (dm : String) (sd : Nat → Bool)
    (b : List ParagraphRow) (rest : List (List ParagraphRow)) (idx : Nat)
    (st : LoopState)
    (hraise : dispatch_annotate env dm (b.map (·.content)) = .raise)
    (hsd : sd idx = false) :
    runBatches env dm sd (b :: rest) idx st
      = runBatches env dm sd rest (idx + 1)
          { st with batch_count := st.batch_count + 1,
                    error_count := st.error_count + b.length } := by
  simp only [runBatches, hsd, Bool.false_eq_true, if_false, processBatch, hraise]

/-- Witness for C6: a raising annotate call on the one-batch fixture counts
one failure and hands control to the (empty) remainder of the loop. -/
theorem c6_batch_raise_isolation_witness :
    dispatch_annotate envRaise "advanced" ([rowP1].map (·.content)) = .raise ∧
    sdNever 0 = false ∧
    runBatches envRaise "advanced" sdNever [[rowP1]] 0
        { processed_count := 0, error_count := 0, batch_count := 0, table := [rowP1] }
      = runBatches envRaise "advanced" sdNever [] 1
          { processed_count := 0, error_count := 1, batch_count := 1, table := [rowP1] } :=
  ⟨rfl, rfl, c6_batch_raise_isolation envRaise "advanced" sdNever [rowP1] [] 0
    { processed_count := 0, error_count := 0, batch_count := 0, table := [rowP1] } rfl rfl⟩

/-- Claim C7 counterexample: on a two-record batch for which the annotate
call returns a single output, the live path counts one success and one
failure — and updates the first record — rather than counting the whole
batch (two records) as failed. -/
theorem c7_length_mismatch_counterexample :
    process_diacritics_job_common envShort ⟨[]⟩ jdShort "advanced" "advanced" sdNever
      = .ok ({ status := "completed", processed_count := 1, error_count := 1,
               message := none, total_paragraphs := some 2 },
             ⟨["b1:c7"]⟩, [{ rowP1 with content := "Ashalom" }, rowP2]) ∧
    ({ status := "completed", processed_count := 1, error_count := 1,
       message := none, total_paragraphs := some 2 } : JobResult).processed_count ≠ 0 := by
  exact ⟨rfl, by decide⟩

/-- Claim C7 (amended): a batch whose annotate call returns fewer outputs
than inputs never crashes the job — the loop proceeds to the remaining
batches — but the mismatch is handled per record: each record with an
available output is updated and counted as a success, and each record past
the returned length is counted as an individual failure via its caught
`IndexError`. -/
theorem c7_length_mismatch_amended (env : Env) (dm : String) (sd : Nat → Bool)
    (res : List String) (b : List ParagraphRow) (rest : List (List ParagraphRow))
    (idx : Nat) (st : LoopState)
    (hok : dispatch_annotate env dm (b.map (·.content)) = .ok res)
    (hlt : res.length < b.length)
    (hsd : sd idx = false)
    (huf : ∀ pid, env.updateFails pid = false) :
    runBatches env dm sd (b :: rest) idx st
      = runBatches env dm sd rest (idx + 1)
          (processBatch env dm b { st with batch_count := st.batch_count + 1 }) ∧
    (processBatch env dm b { st with batch_count := st.batch_count + 1 }).processed_count
      = st.processed_count + res.length ∧
    (processBatch env dm b { st with batch_count := st.batch_count + 1 }).error_count
      = st.error_count + (b.length - res.length) := by
  have hmin : min res.length b.length = res.length := Nat.min_eq_left (Nat.le_of_lt hlt)
  refine ⟨by simp [runBatches, hsd], ?_, ?_⟩
  · simp only [processBatch, hok]
    obtain ⟨h1, -, -⟩ := updateLoop_count env.updateFails res huf b 0
      { st with batch_count := st.batch_count + 1 }
    rw [h1]
    simp only [Nat.sub_zero, hmin]
  · simp only [processBatch, hok]
    obtain ⟨-, h2, -⟩ := updateLoop_count env.updateFails res huf b 0
      { st with batch_count := st.batch_count + 1 }
    rw [h2]
    simp only [Nat.sub_zero, hmin]

/-- Witness for the amended C7: two records, one returned output — one
success, one failure, loop continues. -/
theorem c7_length_mismatch_amended_witness :
    runBatches envShort "advanced" sdNever [[rowP1, rowP2]] 0
        { processed_count := 0, error_count := 0, batch_count := 0, table := [rowP1, rowP2] }
      = runBatches envShort "advanced" sdNever [] 1
          (processBatch envShort "advanced" [rowP1, rowP2]
            { processed_count := 0, error_count := 0, batch_count := 1,
              table := [rowP1, rowP2] }) ∧
    (processBatch envShort "advanced" [rowP1, rowP2]
        { processed_count := 0, error_count := 0, batch_count := 1,
          table := [rowP1, rowP2] }).processed_count = 1 ∧
    (processBatch envShort "advanced" [rowP1, rowP2]
        { processed_count := 0, error_count := 0, batch_count := 1,
          table := [rowP1, rowP2] }).error_count = 1 :=
  c7_length_mismatch_amended envShort "advanced" sdNever ["Ashalom"] [rowP1, rowP2] [] 0
    { processed_count := 0, error_count := 0, batch_count := 0, table := [rowP1, rowP2] }
    rfl (by decide) rfl (fun _ => rfl)

/-- Claim C8 (confirmed): when the shutdown flag is observed false before
each of the first `n` batches and true at the check after them, the loop's
outcome equals processing exactly the first `n` batches (so the counters and
the table reflect those batches only, and later batches' records are
untouched); and every result the live path returns carries status
`completed`. -/
theorem c8_shutdown_boundary (env : Env) (dm : String) (sd : Nat → Bool)
    (bs : List (List ParagraphRow)) (st : LoopState) (n : Nat)
    (h1 : ∀ i, i < n → sd i = false) (h2 : sd n = true) :
    runBatches env dm sd bs 0 st = runBatches env dm sd (bs.take n) 0 st ∧
    ∀ (env2 : Env) (st2 : ProcState) (jd : JobData) (jt dm2 : String)
      (sd2 : Nat → Bool) (r : JobResult) (s : ProcState) (t : List ParagraphRow),
      process_diacritics_job_common env2 st2 jd jt dm2 sd2 = .ok (r, s, t) →
      r.status = "completed" := by
  constructor
  · refine runBatches_shutdown_take env dm sd bs 0 st n ?_ ?_
    · intro i hi
      simpa using h1 i hi
    · simpa using h2
  · intro env2 st2 jd jt dm2 sd2 r s t h
    exact process_common_status_completed env2 st2 jd jt dm2 sd2 r s t h

/-- Witness for C8: the flag set between batch 1 and batch 2 makes the
two-batch run equal the one-batch run. -/
theorem c8_shutdown_boundary_witness :
    runBatches envBase "advanced" sdAfterOne [[rowP1], [rowP2]] 0
        { processed_count := 0, error_count := 0, batch_count := 0, table := [rowP1, rowP2] }
      = runBatches envBase "advanced" sdAfterOne ([[rowP1], [rowP2]].take 1) 0
          { processed_count := 0, error_count := 0, batch_count := 0, table := [rowP1, rowP2] } :=
  (c8_shutdown_boundary envBase "advanced" sdAfterOne [[rowP1], [rowP2]]
    { processed_count := 0, error_count := 0, batch_count := 0, table := [rowP1, rowP2] } 1
    (by decide) rfl).1

/-- Claim C1 counterexample: processing the same job twice on one processor
does give a zero-count no-op for the second delivery, but its status is
`completed` (message `Job already processed`), not `skipped-duplicate`. -/
theorem c1_dedup_status_counterexample :
    process_diacritics_job_common envBase ⟨[]⟩ jdJ1 "advanced" "advanced" sdNever
      = .ok (resJ1, ⟨["b1:c1"]⟩, [rowP1A]) ∧
    process_diacritics_job_common { envBase with table := [rowP1A] } ⟨["b1:c1"]⟩
        jdJ1Again "advanced" "advanced" sdNever
      = .ok (dedupResult, ⟨["b1:c1"]⟩, [rowP1A]) ∧
    dedupResult.status = "completed" ∧
    dedupResult.status ≠ "skipped-duplicate" ∧
    dedupResult.processed_count = 0 ∧ dedupResult.error_count = 0 :=
  ⟨rfl, rfl, rfl, by decide, rfl, rfl⟩

/-- Claim C1 (amended): for two jobs with equal `bookId` and `correlationId`
on the same processor, where the first job's run reached the batch phase (its
result carries no message), the second delivery returns the dedup result —
status `completed`, message `Job already processed`, zero counts — leaving
the processor state and the paragraph table unchanged (no paragraph fetch,
annotate call or update happens; the book-metadata fetch still precedes the
dedup check). -/
theorem c1_dedup_amended (env : Env) (st : ProcState) (jd1 jd2 : JobData)
    (jt dm jt2 dm2 : String) (sd sd2 : Nat → Bool)
    (r1 : JobResult) (st1 : ProcState) (t1 : List ParagraphRow)
    (h1 : process_diacritics_job_common env st jd1 jt dm sd = .ok (r1, st1, t1))
    (hmsg : r1.message = none)
    (hbook : jd2.bookId = jd1.bookId) (hcorr : jd2.correlationId = jd1.correlationId) :
    process_diacritics_job_common { env with table := t1 } st1 jd2 jt2 dm2 sd2
      = .ok (dedupResult, st1, t1) ∧
    dedupResult.status = "completed" ∧ dedupResult.processed_count = 0 ∧
    dedupResult.error_count = 0 ∧
    dedupResult.message = some "Job already processed" := by
  refine ⟨?_, rfl, rfl, rfl, rfl⟩
  unfold process_diacritics_job_common at h1
  split at h1
  · exact Except.noConfusion h1
  · rename_i pr dm1 jt1 hres
    split at h1
    · simp only [Except.ok.injEq, Prod.mk.injEq] at h1
      obtain ⟨hr, -, -⟩ := h1
      rw [← hr] at hmsg
      simp [dedupResult] at hmsg
    · split at h1
      · simp only [Except.ok.injEq, Prod.mk.injEq] at h1
        obtain ⟨hr, -, -⟩ := h1
        rw [← hr] at hmsg
        simp [noParagraphsResult] at hmsg
      · simp only [Except.ok.injEq, Prod.mk.injEq] at h1
        obtain ⟨-, hst, ht⟩ := h1
        subst hst
        subst ht
        refine process_common_dedup _ _ jd2 jt2 dm2 sd2 ?_ ?_
        · rw [hbook, hcorr]
          exact contains_append_self st.processed_jobs _
        · rw [hbook]
          exact resolve_ok_total (get_book_by_id env.books jd1.bookId) dm jt dm2 jt2 _ hres

/-- Witness for the amended C1: after the concrete first run, the second
delivery of the same `(bookId, correlationId)` — even with different defaults
and a set shutdown flag — returns the dedup result unchanged. -/
theorem c1_dedup_amended_witness :
    process_diacritics_job_common envBase ⟨[]⟩ jdJ1 "advanced" "advanced" sdNever
      = .ok (resJ1, ⟨["b1:c1"]⟩, [rowP1A]) ∧
    resJ1.message = none ∧
    jdJ1Again.bookId = jdJ1.bookId ∧
    jdJ1Again.correlationId = jdJ1.correlationId ∧
    process_diacritics_job_common { envBase with table := [rowP1A] } ⟨["b1:c1"]⟩
        jdJ1Again "simple" "simple" sdAlways
      = .ok (dedupResult, ⟨["b1:c1"]⟩, [rowP1A]) :=
  ⟨rfl, rfl, rfl, rfl,
    (c1_dedup_amended envBase ⟨[]⟩ jdJ1 jdJ1Again "advanced" "advanced" "simple" "simple"
      sdNever sdAlways resJ1 ⟨["b1:c1"]⟩ [rowP1A] rfl rfl rfl rfl).1⟩

/-- Claim C9 (confirmed): for a message whose decode and `process_job` call
succeed, the consumer naks nothing, issues between one and three ack
attempts with a 0.5-second pause between consecutive attempts, stops at the
first successful ack (all earlier attempts failed), and if all three fail it
stops after the third without a nak; for a message whose decode or
processing raises, it issues exactly one nak and no ack attempt. -/
theorem c9_ack_nak_contract (env : Env) (st : ProcState) (msg : Msg)
    (af sd : Nat → Bool) (tr : MsgTrace)
    (htr : (process_message env st msg af sd).1 = tr) :
    ((∃ x, message_outcome env st msg sd = .ok x) →
      tr.naks = 0 ∧ 1 ≤ tr.ack_attempts ∧ tr.ack_attempts ≤ 3 ∧
      tr.sleeps + 1 = tr.ack_attempts ∧
      (tr.ack_success = true →
        af (tr.ack_attempts - 1) = false ∧
        ∀ i, i < tr.ack_attempts - 1 → af i = true) ∧
      (tr.ack_success = false → tr.ack_attempts = 3 ∧ ∀ i, i < 3 → af i = true)) ∧
    ((∃ e, message_outcome env st msg sd = .error e) →
      tr.naks = 1 ∧ tr.ack_attempts = 0) := by
  subst htr
  constructor
  · rintro ⟨⟨r, st', t'⟩, hx⟩
    have hpm : (process_message env st msg af sd).1 = ack_retry af [0, 1, 2] := by
      unfold process_message
      rw [hx]
    rw [hpm]
    cases h0 : af 0 with
    | false =>
      have htrv : ack_retry af [0, 1, 2]
          = { ack_attempts := 1, ack_success := true, naks := 0, sleeps := 0 } := by
        simp [ack_retry, h0]
      rw [htrv]
      refine ⟨rfl, by decide, by decide, rfl, ?_, ?_⟩
      · intro _
        refine ⟨h0, ?_⟩
        intro i hi
        have hi' : i < 0 := hi
        exact absurd hi' (Nat.not_lt_zero i)
      · intro hcontr
        exact absurd hcontr (by decide)
    | true =>
      cases h1 : af 1 with
      | false =>
        have htrv : ack_retry af [0, 1, 2]
            = { ack_attempts := 2, ack_success := true, naks := 0, sleeps := 1 } := by
          simp [ack_retry, h0, h1]
        rw [htrv]
        refine ⟨rfl, by decide, by decide, rfl, ?_, ?_⟩
        · intro _
          refine ⟨h1, ?_⟩
          intro i hi
          have hi' : i < 1 := hi
          interval_cases i
          exact h0
        · intro hcontr
          exact absurd hcontr (by decide)
      | true =>
        cases h2 : af 2 with
        | false =>
          have htrv : ack_retry af [0, 1, 2]
              = { ack_attempts := 3, ack_success := true, naks := 0, sleeps := 2 } := by
            simp [ack_retry, h0, h1, h2]
          rw [htrv]
          refine ⟨rfl, by decide, by decide, rfl, ?_, ?_⟩
          · intro _
            refine ⟨h2, ?_⟩
            intro i hi
            have hi' : i < 2 := hi
            interval_cases i
            · exact h0
            · exact h1
          · intro hcontr
            exact absurd hcontr (by decide)
        | true =>
          have htrv : ack_retry af [0, 1, 2]
              = { ack_attempts := 3, ack_success := false, naks := 0, sleeps := 2 } := by
            simp [ack_retry, h0, h1, h2]
          rw [htrv]
          refine ⟨rfl, by decide, by decide, rfl, ?_, ?_⟩
          · intro hcontr
            exact absurd hcontr (by decide)
          · intro _
            refine ⟨rfl, ?_⟩
            intro i hi
            have hi' : i < 3 := hi
            interval_cases i
            · exact h0
            · exact h1
            · exact h2
  · rintro ⟨e, he⟩
    have hpm : (process_message env st msg af sd).1 = nak_trace := by
      unfold process_message
      rw [he]
    rw [hpm]
    exact ⟨rfl, rfl⟩

/-- Witness for C9: a successfully processed concrete message with a healthy
broker yields one ack attempt, no nak. -/
theorem c9_ack_nak_contract_witness :
    (process_message envBase ⟨[]⟩ msgFlat afNever sdNever).1
      = { ack_attempts := 1, ack_success := true, naks := 0, sleeps := 0 } ∧
    message_outcome envBase ⟨[]⟩ msgFlat sdNever
      = .ok (resJ1, ⟨["b1:c1"]⟩, [rowP1A]) ∧
    ({ ack_attempts := 1, ack_success := true, naks := 0, sleeps := 0 } : MsgTrace).naks = 0 ∧
    1 ≤ ({ ack_attempts := 1, ack_success := true, naks := 0,
           sleeps := 0 } : MsgTrace).ack_attempts := by
  have h := c9_ack_nak_contract envBase ⟨[]⟩ msgFlat afNever sdNever
    { ack_attempts := 1, ack_success := true, naks := 0, sleeps := 0 } rfl
  have h2 := h.1 ⟨(resJ1, ⟨["b1:c1"]⟩, [rowP1A]), rfl⟩
  exact ⟨rfl, rfl, h2.1, h2.2.1⟩

/-- Claim C10 (confirmed, implicit): with the service initialized, both batch
methods return a list of exactly the input length and never raise for an
individual text; a text whose engine call raises comes back unchanged in its
position, and in the job processor such a record is counted as a success
with its original content written back to the store. -/
theorem c10_per_text_failure_invisible (engine : String → Except String String)
    (texts : List String) (p : ParagraphRow) (st : LoopState) (e : String)
    (hfail : engine p.content = .error e) :
    add_advanced_diacritics_batch true engine texts
      = .ok (texts.map (batch_item true engine)) ∧
    (texts.map (batch_item true engine)).length = texts.length ∧
    (∃ rs, add_simple_diacritics_batch true engine texts = .ok rs
      ∧ rs.length = texts.length) ∧
    batch_item true engine p.content = p.content ∧
    processBatch (service_env engine) "advanced" [p] { st with table := [p] }
      = { st with processed_count := st.processed_count + 1, table := [p] } := by
  have hitem : batch_item true engine p.content = p.content := by
    simp [batch_item, add_diacritics, hfail]
  refine ⟨rfl, by simp, ⟨_, rfl, by simp⟩, hitem, ?_⟩
  have hdisp : dispatch_annotate (service_env engine) "advanced" ([p].map (·.content))
      = .ok [p.content] := by
    simp [dispatch_annotate, service_env, add_advanced_diacritics_batch, hitem]
  simp only [processBatch, hdisp]
  obtain ⟨pid, pcon, pord, ppg, pbk, ppo⟩ := p
  simp [updateLoop, update_paragraph_content, service_env]

/-- Witness for C10: a constantly failing engine leaves batch inputs
unchanged, and the processor counts the record as processed while writing
back its original content. -/
theorem c10_per_text_failure_invisible_witness :
    engineFail rowP1.content = .error "boom" ∧
    add_advanced_diacritics_batch true engineFail ["a", "b"]
      = .ok (["a", "b"].map (batch_item true engineFail)) ∧
    batch_item true engineFail rowP1.content = rowP1.content ∧
    processBatch (service_env engineFail) "advanced" [rowP1]
        { processed_count := 0, error_count := 0, batch_count := 0, table := [rowP1] }
      = { processed_count := 1, error_count := 0, batch_count := 0, table := [rowP1] } := by
  have h := c10_per_text_failure_invisible engineFail ["a", "b"] rowP1
    { processed_count := 0, error_count := 0, batch_count := 0, table := [rowP1] }
    "boom" rfl
  exact ⟨rfl, h.1, h.2.2.2.1, h.2.2.2.2⟩
